/-
Verification of the ai-auto-trading trading control plane.

Shallow embedding of the TypeScript sources into Lean 4:
  * GateExchangeClient (order-size clamping, trigger-price adjustment,
    stop-loss / take-profit order placement result logic)
  * RateLimitManager (admission protocol: penalty windows, sliding ring)
  * FeeService (actual-vs-estimated fee selection)
  * InconsistentStateResolver (transactional close synthesis, failure tracking)
  * /api/prices HTTP handler (server-side price cache)

Numbers that the source manipulates as JS floats are modelled as rationals
(ℚ); millisecond clocks as ℕ; fallible calls as Option/Except; the SQLite
store as a record of row lists with BEGIN/COMMIT/ROLLBACK modelled as
all-or-nothing application of the statement sequence.
-/
import Mathlib

namespace AutoTrading

/-- Position direction, as in the TS union type `'long' | 'short'`. -/
inductive Side where
  | long
  | short
deriving DecidableEq, Repr

/-! ### GateExchangeClient.setPositionStopLoss — trigger-price adjustment

From src/agents/compactPrompt.ts lines 1290-1323 (stop-loss branch) and
1382-1415 (take-profit branch).  The source first checks whether the
proposed trigger already lies on the triggered side of the current price
(`isInvalidStopLoss` / `isInvalidTakeProfit`) and shifts it 0.5% onto the
valid side; otherwise, if the relative deviation from the current price is
below 0.3%, it shifts the trigger to exactly 0.3% away. -/

/-- Stop-loss price validation/adjustment.
`(side === 'long' && stopLoss >= currentPrice) || (side === 'short' && stopLoss <= currentPrice)`
shifts by `minDistance = 0.005`; otherwise a deviation `< 0.003` shifts to
`minSafeDistance = 0.003`. -/
def adjustStopLossPrice (side : Side) (stopLoss currentPrice : ℚ) : ℚ :=
  if (side = Side.long ∧ stopLoss ≥ currentPrice) ∨
     (side = Side.short ∧ stopLoss ≤ currentPrice) then
    match side with
    | Side.long => currentPrice * (1 - 5/1000)
    | Side.short => currentPrice * (1 + 5/1000)
  else
    if |stopLoss - currentPrice| / currentPrice < 3/1000 then
      match side with
      | Side.long => currentPrice * (1 - 3/1000)
      | Side.short => currentPrice * (1 + 3/1000)
    else
      stopLoss

/-- Take-profit price validation/adjustment (mirror image of the stop-loss
branch: for a long the triggered side is `takeProfit <= currentPrice`). -/
def adjustTakeProfitPrice (side : Side) (takeProfit currentPrice : ℚ) : ℚ :=
  if (side = Side.long ∧ takeProfit ≤ currentPrice) ∨
     (side = Side.short ∧ takeProfit ≥ currentPrice) then
    match side with
    | Side.long => currentPrice * (1 + 5/1000)
    | Side.short => currentPrice * (1 - 5/1000)
  else
    if |takeProfit - currentPrice| / currentPrice < 3/1000 then
      match side with
      | Side.long => currentPrice * (1 + 3/1000)
      | Side.short => currentPrice * (1 - 3/1000)
    else
      takeProfit

/-! ### GateExchangeClient.placeOrder — size clamping

From src/agents/compactPrompt.ts lines 766-790.  The source clamps
`|size| < orderSizeMin` up to `orderSizeMin` (when `orderSizeMin` is
truthy) and `|size| > maxSize` down to
`maxSize = min(orderSizeMax, API_MAX_SIZE)` with `API_MAX_SIZE = 10000000`
(`maxSize = API_MAX_SIZE` when `orderSizeMax` is falsy), keeping the sign
of the requested size via `params.size > 0 ? m : -m`. -/
def clampOrderSize (orderSizeMin orderSizeMax : ℚ) (size : ℚ) : ℚ :=
  let absSize := |size|
  let apiMaxSize : ℚ := 10000000
  let afterMin :=
    if orderSizeMin ≠ 0 ∧ absSize < orderSizeMin then
      (if size > 0 then orderSizeMin else -orderSizeMin)
    else size
  let maxSize := if orderSizeMax ≠ 0 then min orderSizeMax apiMaxSize else apiMaxSize
  if absSize > maxSize then
    (if size > 0 then maxSize else -maxSize)
  else afterMin

end AutoTrading

namespace AutoTrading

/-- Helper: on a long position a stop-loss strictly below the current price
is on the valid side, so the 0.5%-shift branch is not taken. -/
theorem adjustStopLossPrice_long_validSide (p current : ℚ) (hp : p < current) :
    adjustStopLossPrice Side.long p current =
      if |p - current| / current < 3/1000 then current * (1 - 3/1000) else p := by
  unfold adjustStopLossPrice
  rw [if_neg]
  rintro (⟨-, h⟩ | ⟨h, -⟩)
  · exact absurd h (not_le.2 hp)
  · cases h

/-- Helper: short-side stop-loss strictly above the current price. -/
theorem adjustStopLossPrice_short_validSide (p current : ℚ) (hp : current < p) :
    adjustStopLossPrice Side.short p current =
      if |p - current| / current < 3/1000 then current * (1 + 3/1000) else p := by
  unfold adjustStopLossPrice
  rw [if_neg]
  rintro (⟨h, -⟩ | ⟨-, h⟩)
  · cases h
  · exact absurd h (not_le.2 hp)

/-- Helper: long-side take-profit strictly above the current price. -/
theorem adjustTakeProfitPrice_long_validSide (p current : ℚ) (hp : current < p) :
    adjustTakeProfitPrice Side.long p current =
      if |p - current| / current < 3/1000 then current * (1 + 3/1000) else p := by
  unfold adjustTakeProfitPrice
  rw [if_neg]
  rintro (⟨-, h⟩ | ⟨h, -⟩)
  · exact absurd h (not_le.2 hp)
  · cases h

/-- Helper: short-side take-profit strictly below the current price. -/
theorem adjustTakeProfitPrice_short_validSide (p current : ℚ) (hp : p < current) :
    adjustTakeProfitPrice Side.short p current =
      if |p - current| / current < 3/1000 then current * (1 - 3/1000) else p := by
  unfold adjustTakeProfitPrice
  rw [if_neg]
  rintro (⟨h, -⟩ | ⟨-, h⟩)
  · cases h
  · exact absurd h (not_le.2 hp)

/-- C6: every stop-loss / take-profit trigger price run through
`setPositionStopLoss`'s validation is shifted to 0.5% away from the current
price on the valid side when it already lies on the triggered side, and to
exactly 0.3% away when it is on the valid side but within 0.3% of the
current price. -/
theorem C6_trigger_price_adjustment (p current : ℚ) (hc : 0 < current) :
    (p ≥ current → adjustStopLossPrice Side.long p current = current * (1 - 5/1000)) ∧
    (p ≤ current → adjustStopLossPrice Side.short p current = current * (1 + 5/1000)) ∧
    (p < current → |p - current| / current < 3/1000 →
      adjustStopLossPrice Side.long p current = current * (1 - 3/1000)) ∧
    (current < p → |p - current| / current < 3/1000 →
      adjustStopLossPrice Side.short p current = current * (1 + 3/1000)) ∧
    (p ≤ current → adjustTakeProfitPrice Side.long p current = current * (1 + 5/1000)) ∧
    (p ≥ current → adjustTakeProfitPrice Side.short p current = current * (1 - 5/1000)) ∧
    (current < p → |p - current| / current < 3/1000 →
      adjustTakeProfitPrice Side.long p current = current * (1 + 3/1000)) ∧
    (p < current → |p - current| / current < 3/1000 →
      adjustTakeProfitPrice Side.short p current = current * (1 - 3/1000)) := by
  refine ⟨fun hp => ?_, fun hp => ?_, fun hp hd => ?_, fun hp hd => ?_,
          fun hp => ?_, fun hp => ?_, fun hp hd => ?_, fun hp hd => ?_⟩
  · unfold adjustStopLossPrice
    rw [if_pos (Or.inl ⟨rfl, hp⟩)]
  · unfold adjustStopLossPrice
    rw [if_pos (Or.inr ⟨rfl, hp⟩)]
  · rw [adjustStopLossPrice_long_validSide p current hp, if_pos hd]
  · rw [adjustStopLossPrice_short_validSide p current hp, if_pos hd]
  · unfold adjustTakeProfitPrice
    rw [if_pos (Or.inl ⟨rfl, hp⟩)]
  · unfold adjustTakeProfitPrice
    rw [if_pos (Or.inr ⟨rfl, hp⟩)]
  · rw [adjustTakeProfitPrice_long_validSide p current hp, if_pos hd]
  · rw [adjustTakeProfitPrice_short_validSide p current hp, if_pos hd]

/-- Witness for C6 at a concrete input: a long stop-loss at 100 with the
current price also at 100 is on the triggered side and is shifted 0.5%
down. -/
theorem C6_trigger_price_adjustment_witness :
    adjustStopLossPrice Side.long 100 100 = 100 * (1 - 5/1000) :=
  (C6_trigger_price_adjustment 100 100 (by norm_num)).1 (le_refl 100)

/-- C7 fails as stated: with `orderSizeMax = 20000000` a requested size of
30000000 is clamped to the API hard cap 10000000, not to `orderSizeMax`. -/
theorem C7_counterexample :
    (30000000:ℚ) > 20000000 ∧
    clampOrderSize 1 20000000 30000000 = 10000000 ∧
    clampOrderSize 1 20000000 30000000 ≠ 20000000 := by
  norm_num [clampOrderSize]

/-- C7 (amended): sizes below `orderSizeMin` are clamped up to
`orderSizeMin`; sizes above `min orderSizeMax 10000000` (the contract
maximum capped by the hard API maximum of 10000000 contracts) are clamped
down to that bound; the sign of the requested size is preserved. -/
theorem C7_order_size_clamped (orderSizeMin orderSizeMax size : ℚ)
    (hmin : 0 < orderSizeMin) (hmax : 0 < orderSizeMax) (hne : size ≠ 0)
    (hord : orderSizeMin ≤ min orderSizeMax 10000000) :
    (|size| < orderSizeMin →
      clampOrderSize orderSizeMin orderSizeMax size =
        if size > 0 then orderSizeMin else -orderSizeMin) ∧
    (|size| > min orderSizeMax 10000000 →
      clampOrderSize orderSizeMin orderSizeMax size =
        if size > 0 then min orderSizeMax 10000000 else -(min orderSizeMax 10000000)) ∧
    (0 < size → 0 < clampOrderSize orderSizeMin orderSizeMax size) ∧
    (size < 0 → clampOrderSize orderSizeMin orderSizeMax size < 0) := by
  have hmaxv : 0 < min orderSizeMax (10000000:ℚ) := lt_min hmax (by norm_num)
  refine ⟨fun hlt => ?_, fun hgt => ?_, fun hpos => ?_, fun hneg => ?_⟩
  · simp only [clampOrderSize]
    rw [if_pos (ne_of_gt hmax), if_neg (not_lt.2 (le_trans (le_of_lt hlt) hord)),
      if_pos ⟨ne_of_gt hmin, hlt⟩]
  · simp only [clampOrderSize]
    rw [if_pos (ne_of_gt hmax), if_pos hgt]
  · simp only [clampOrderSize]
    rw [if_pos (ne_of_gt hmax)]
    split_ifs <;> linarith
  · simp only [clampOrderSize]
    rw [if_pos (ne_of_gt hmax)]
    split_ifs <;> linarith

/-- Witness for C7 (amended) at a concrete input: a sell of 3 contracts
with `orderSizeMin = 10` is clamped up to -10. -/
theorem C7_order_size_clamped_witness :
    clampOrderSize 10 1000 (-3) = if (-3:ℚ) > 0 then 10 else -10 :=
  (C7_order_size_clamped 10 1000 (-3) (by norm_num) (by norm_num) (by norm_num)
    (by norm_num)).1 (by norm_num)

end AutoTrading

namespace AutoTrading

/-! ### FeeService — src/services/feeService.ts

`getActualFeeFromTrade` filters recent fills by
`t.order_id === orderId || t.id === orderId`, sums the absolute fees of the
matches (partial fills), and returns `{fee, source: 'actual'}`; with no
match it returns null.  `estimateFee` multiplies the notional value by the
configured maker/taker rate for the current venue/network
(`RISK_PARAMS.FEE_RATES[exchange][network]`, passed here as an explicit
rate configuration).  `getFee` prefers the actual fee only when it is
strictly positive (`actualFee && actualFee.fee > 0`). -/

/-- Models `FeeCalculationResult.source`. -/
inductive FeeSource where
  | actual
  | estimated
deriving DecidableEq, Repr

/-- Models `FeeCalculationResult` of feeService.ts. -/
structure FeeCalculationResult where
  fee : ℚ
  source : FeeSource
  rate : Option ℚ
deriving DecidableEq, Repr

/-- One fill row returned by `getMyTrades` (the fields `getActualFeeFromTrade`
reads: `id`, `order_id`, `fee`). -/
structure TradeFillRecord where
  id : String
  orderId : String
  fee : ℚ
deriving DecidableEq, Repr

/-- The fills matching an order id:
`trades.filter((t) => t.order_id === orderId || t.id === orderId)`. -/
def matchedFills (orderId : String) (trades : List TradeFillRecord) : List TradeFillRecord :=
  trades.filter (fun t => t.orderId == orderId || t.id == orderId)

/-- Models `FeeService.getActualFeeFromTrade`, with the 5-minute cache elided (the
cache only memoises this pure computation). -/
def getActualFeeFromTrade (orderId : String) (trades : List TradeFillRecord) :
    Option FeeCalculationResult :=
  let matched := matchedFills orderId trades
  if matched.isEmpty then none
  else some { fee := (matched.map (fun t => |t.fee|)).sum
              source := FeeSource.actual
              rate := none }

/-- Configured maker/taker rates for one (venue, network) pair. -/
structure FeeRateConfig where
  maker : ℚ
  taker : ℚ
deriving DecidableEq, Repr

/-- Models `FeeService.estimateFee`. -/
def estimateFee (cfg : FeeRateConfig) (notionalValue : ℚ) (isMaker : Bool) :
    FeeCalculationResult :=
  let feeRate := if isMaker then cfg.maker else cfg.taker
  { fee := |notionalValue * feeRate|
    source := FeeSource.estimated
    rate := some feeRate }

/-- Models `FeeService.getFee`. -/
def getFee (orderId : Option String) (trades : List TradeFillRecord)
    (cfg : FeeRateConfig) (notionalValue : ℚ) (isMaker : Bool) : FeeCalculationResult :=
  match orderId with
  | some oid =>
    match getActualFeeFromTrade oid trades with
    | some actualFee =>
      if actualFee.fee > 0 then actualFee else estimateFee cfg notionalValue isMaker
    | none => estimateFee cfg notionalValue isMaker
  | none => estimateFee cfg notionalValue isMaker

theorem estimateFee_source (cfg : FeeRateConfig) (nv : ℚ) (mk : Bool) :
    (estimateFee cfg nv mk).source = FeeSource.estimated := rfl

/-- C9: when fills matching the order id exist but their summed absolute fee
is zero, `getFee` returns the estimated fee, not the zero actual fee; and an
actual-fee result is only ever returned with a strictly positive fee. -/
theorem C9_zero_actual_fee_falls_back_to_estimate (oid : String)
    (trades : List TradeFillRecord) (cfg : FeeRateConfig) (notionalValue : ℚ)
    (isMaker : Bool) (hfound : matchedFills oid trades ≠ [])
    (hzero : ((matchedFills oid trades).map (fun t => |t.fee|)).sum = 0) :
    getFee (some oid) trades cfg notionalValue isMaker =
      estimateFee cfg notionalValue isMaker ∧
    ∀ oid2 trades2 cfg2 nv2 mk2,
      (getFee oid2 trades2 cfg2 nv2 mk2).source = FeeSource.actual →
      0 < (getFee oid2 trades2 cfg2 nv2 mk2).fee := by
  constructor
  · simp only [getFee, getActualFeeFromTrade]
    rw [if_neg (by simpa [List.isEmpty_iff] using hfound)]
    simp [hzero]
  · intro oid2 trades2 cfg2 nv2 mk2 hsrc
    rcases oid2 with _ | o
    · simp [getFee, estimateFee] at hsrc
    · rcases h : getActualFeeFromTrade o trades2 with _ | r
      · simp [getFee, h, estimateFee] at hsrc
      · by_cases hf : r.fee > 0
        · simpa [getFee, h, hf] using hf
        · simp [getFee, h, hf, estimateFee] at hsrc

/-- Witness for C9: a single matching fill with fee 0 yields the estimated
fee. -/
theorem C9_zero_actual_fee_falls_back_to_estimate_witness :
    getFee (some "42") [⟨"1", "42", 0⟩] ⟨1/2000, 1/2000⟩ 1000 false =
      estimateFee ⟨1/2000, 1/2000⟩ 1000 false :=
  (C9_zero_actual_fee_falls_back_to_estimate "42" [⟨"1", "42", 0⟩] ⟨1/2000, 1/2000⟩
    1000 false (by simp [matchedFills]) (by simp [matchedFills])).1

end AutoTrading

namespace AutoTrading

/-! ### GET /api/prices — server-side price cache

From the API-routes module (`createApiRoutes`).  The handler derives the
symbol list from the `TRADING_SYMBOLS` environment variable (default
`'BTC,ETH,SOL,XRP,BNB,BCH'`); the request's `symbols` query parameter is
never read.  A module-level cache `{prices, timestamp}` short-circuits the
fetch when it is younger than `PRICE_CACHE_TTL = 5000` ms; per-symbol fetch
failures fall back to the old cached price (0 when absent). -/

/-- The module-level `priceCache` value. -/
structure PriceCache where
  prices : List (String × ℚ)
  timestamp : ℕ
deriving DecidableEq, Repr

/-- Lookup `prices[symbol]`. -/
def lookupPrice (ps : List (String × ℚ)) (sym : String) : Option ℚ :=
  (ps.find? (fun p => p.1 == sym)).map Prod.snd

/-- The fetch loop of the handler: one `getFuturesTicker` per configured
symbol, with fallback to the previous cache entry (else 0) on failure, then
the cache is replaced by the fresh prices. -/
def apiPricesFetch (tradingSymbolsEnv : List String) (cache : Option PriceCache)
    (fetchLast : String → Option ℚ) (now : ℕ) :
    List (String × ℚ) × Option PriceCache :=
  let prices := tradingSymbolsEnv.map (fun sym =>
    (sym, match fetchLast sym with
          | some last => last
          | none =>
            match cache with
            | some pc => (lookupPrice pc.prices sym).getD 0
            | none => 0))
  (prices, some { prices := prices, timestamp := now })

/-- The `/api/prices` request handler.  `querySymbolsParam` is the request's
`symbols` CSV query parameter; the source never reads it, so it is unused
here too. -/
def apiPricesHandler (tradingSymbolsEnv : List String) (querySymbolsParam : Option String)
    (now : ℕ) (cache : Option PriceCache) (fetchLast : String → Option ℚ) :
    List (String × ℚ) × Option PriceCache :=
  match cache with
  | some pc =>
    if now - pc.timestamp < 5000 then (pc.prices, some pc)
    else apiPricesFetch tradingSymbolsEnv (some pc) fetchLast now
  | none => apiPricesFetch tradingSymbolsEnv none fetchLast now

/-- C8 fails as stated: a request whose `symbols` CSV names only `DOGE`
still receives prices for the configured trading symbols, and no price for
`DOGE`. -/
theorem C8_counterexample :
    ((apiPricesHandler ["BTC", "ETH", "SOL", "XRP", "BNB", "BCH"] (some "DOGE") 0 none
        (fun _ => some 7)).1.map Prod.fst = ["BTC", "ETH", "SOL", "XRP", "BNB", "BCH"]) ∧
    "DOGE" ∉ (apiPricesHandler ["BTC", "ETH", "SOL", "XRP", "BNB", "BCH"] (some "DOGE") 0
        none (fun _ => some 7)).1.map Prod.fst := by
  constructor
  · simp [apiPricesHandler, apiPricesFetch]
  · simp [apiPricesHandler, apiPricesFetch]

/-- C8 (amended): `/api/prices` returns one price per configured
`TRADING_SYMBOLS` entry, the `symbols` query parameter has no effect on the
response, and a second request made less than 5 seconds after a cache-miss
request observes exactly the prices object the first request produced. -/
theorem C8_prices_env_symbols_and_cache (syms : List String) (q1 q2 : Option String)
    (t0 t1 : ℕ) (f1 f2 : String → Option ℚ) (cache : Option PriceCache)
    (httl : t1 - t0 < 5000) :
    ((apiPricesHandler syms q1 t0 none f1).1.map Prod.fst = syms) ∧
    (apiPricesHandler syms q1 t0 cache f1 = apiPricesHandler syms q2 t0 cache f1) ∧
    ((apiPricesHandler syms q2 t1 (apiPricesHandler syms q1 t0 none f1).2 f2).1 =
      (apiPricesHandler syms q1 t0 none f1).1) := by
  refine ⟨?_, rfl, ?_⟩
  · simp only [apiPricesHandler, apiPricesFetch, List.map_map]
    exact List.map_id'' (fun x => rfl) syms
  · simp [apiPricesHandler, apiPricesFetch, httl]

/-- Witness for C8 (amended) at concrete inputs: requests at t=0 and
t=4999. -/
theorem C8_prices_env_symbols_and_cache_witness :
    (apiPricesHandler ["BTC"] (some "DOGE") 4999
        (apiPricesHandler ["BTC"] none 0 none (fun _ => some 3)).2 (fun _ => some 9)).1 =
      (apiPricesHandler ["BTC"] none 0 none (fun _ => some 3)).1 :=
  (C8_prices_env_symbols_and_cache ["BTC"] none (some "DOGE") 0 4999 (fun _ => some 3)
    (fun _ => some 9) none (by norm_num)).2.2

/-! ### RateLimitManager — src/agents/compactPrompt.ts (rate-limit module)

State and admission protocol of the per-exchange `RateLimitManager`
singleton.  Times are epoch milliseconds; `REQUEST_WINDOW = 60000`. -/

/-- Models `RateLimitConfig`. -/
structure RateLimitConfig where
  maxRequestsPerMinute : ℕ
  minRequestDelay : ℕ
  circuitBreakerThreshold : ℕ
  circuitBreakerTimeout : ℕ
deriving DecidableEq, Repr

/-- Mutable state of a `RateLimitManager` instance. -/
structure RateLimitState where
  requestTimestamps : List ℕ
  lastRequestTime : ℕ
  consecutiveFailures : ℕ
  circuitBreakerOpenUntil : ℕ
  backoffUntil : ℕ
  ipBannedUntil : ℕ
deriving DecidableEq, Repr

/-- Which penalty window produced a rejection. -/
inductive BlockKind where
  | ipBanned
  | backoff429
  | circuitBreaker
deriving DecidableEq, Repr

/-- The typed rejection: which window is active and how long it has left
(the thrown error message carries `remainingSeconds = ⌈waitMs/1000⌉`). -/
structure BlockInfo where
  kind : BlockKind
  waitMs : ℕ
deriving DecidableEq, Repr

/-- Models `shouldBlockRequest`: checks the ban, then expires it (clearing the
failure count, circuit breaker AND the 429 backoff), then checks the 429
backoff, then the circuit breaker, then expires the circuit breaker.
Returns the block verdict and the (possibly cleaned) state. -/
def shouldBlockRequest (now : ℕ) (s : RateLimitState) :
    Option BlockInfo × RateLimitState :=
  if now < s.ipBannedUntil then
    (some { kind := BlockKind.ipBanned, waitMs := s.ipBannedUntil - now }, s)
  else
    let s1 :=
      if 0 < s.ipBannedUntil ∧ s.ipBannedUntil ≤ now then
        { s with ipBannedUntil := 0, consecutiveFailures := 0,
                 circuitBreakerOpenUntil := 0, backoffUntil := 0 }
      else s
    if now < s1.backoffUntil then
      (some { kind := BlockKind.backoff429, waitMs := s1.backoffUntil - now }, s1)
    else if now < s1.circuitBreakerOpenUntil then
      (some { kind := BlockKind.circuitBreaker,
              waitMs := s1.circuitBreakerOpenUntil - now }, s1)
    else
      let s2 :=
        if 0 < s1.circuitBreakerOpenUntil ∧ s1.circuitBreakerOpenUntil ≤ now then
          { s1 with consecutiveFailures := 0, circuitBreakerOpenUntil := 0 }
        else s1
      (none, s2)

/-- Result of `waitForRateLimit`: either the typed rejection (thrown before
any sleep) or the list of performed sleeps plus the updated state. -/
def waitForRateLimit (cfg : RateLimitConfig) (now : ℕ) (s : RateLimitState) :
    Except BlockInfo (List ℕ × RateLimitState) :=
  match shouldBlockRequest now s with
  | (some b, _) => Except.error b
  | (none, s1) =>
    let ts := s1.requestTimestamps.filter (fun t => now - t < 60000)
    let ringWait : ℕ :=
      if ts.length ≥ cfg.maxRequestsPerMinute then
        match ts.head? with
        | some oldest => 60000 - (now - oldest) + 100
        | none => 0
      else 0
    let delayWait : ℕ :=
      if now - s1.lastRequestTime < cfg.minRequestDelay then
        cfg.minRequestDelay - (now - s1.lastRequestTime)
      else 0
    let recordedAt := now + ringWait + delayWait
    Except.ok
      ((if 0 < ringWait then [ringWait] else []) ++
         (if 0 < delayWait then [delayWait] else []),
       { s1 with requestTimestamps := ts ++ [recordedAt], lastRequestTime := recordedAt })

end AutoTrading

namespace AutoTrading

/-- True when the admission call was admitted (no typed rejection thrown). -/
def isAdmitted : Except BlockInfo (List ℕ × RateLimitState) → Bool
  | Except.ok _ => true
  | Except.error _ => false

/-- C3 fails as stated: with an already-expired IP ban on record
(`ipBannedUntil = 5 ≤ now = 10`) and an active 429 backoff
(`backoffUntil = 100 > now`), the ban-expiry cleanup also clears
`backoffUntil`, so the call is admitted even though `now < backoffUntil`
held on entry. -/
theorem C3_counterexample :
    (10:ℕ) < (RateLimitState.mk [] 0 0 0 100 5).backoffUntil ∧
    waitForRateLimit ⟨10, 0, 5, 60000⟩ 10 (RateLimitState.mk [] 0 0 0 100 5) =
      Except.ok ([], RateLimitState.mk [10] 10 0 0 0 0) :=
  ⟨by decide, rfl⟩

/-- C3 (amended): the admission call rejects, without performing any wait,
with a typed error carrying the remaining milliseconds of the triggering
window, when `now < ipBannedUntil`; when no IP ban is on record
(`ipBannedUntil = 0`) and `now < backoffUntil`; or when no IP ban is on
record, the backoff has lapsed and `now < circuitBreakerOpenUntil`.  An IP
ban whose deadline has already passed (`0 < ipBannedUntil ≤ now`) instead
clears the backoff and circuit-breaker windows and the call is admitted. -/
theorem C3_blocked_call_rejected (cfg : RateLimitConfig) (now : ℕ) (s : RateLimitState) :
    (now < s.ipBannedUntil →
      waitForRateLimit cfg now s =
        Except.error ⟨BlockKind.ipBanned, s.ipBannedUntil - now⟩) ∧
    (s.ipBannedUntil = 0 → now < s.backoffUntil →
      waitForRateLimit cfg now s =
        Except.error ⟨BlockKind.backoff429, s.backoffUntil - now⟩) ∧
    (s.ipBannedUntil = 0 → s.backoffUntil ≤ now → now < s.circuitBreakerOpenUntil →
      waitForRateLimit cfg now s =
        Except.error ⟨BlockKind.circuitBreaker, s.circuitBreakerOpenUntil - now⟩) ∧
    (0 < s.ipBannedUntil → s.ipBannedUntil ≤ now →
      isAdmitted (waitForRateLimit cfg now s) = true) := by
  refine ⟨fun h => ?_, fun h0 hb => ?_, fun h0 hbn hc => ?_, fun h1 h2 => ?_⟩
  · simp [waitForRateLimit, shouldBlockRequest, h]
  · simp [waitForRateLimit, shouldBlockRequest, h0, hb]
  · simp [waitForRateLimit, shouldBlockRequest, h0, Nat.not_lt.2 hbn, hc]
  · simp [waitForRateLimit, shouldBlockRequest, Nat.not_lt.2 h2, h1, h2, isAdmitted]

/-- Witness for C3 (amended): a live ban with 90 ms remaining rejects with
the remaining duration. -/
theorem C3_blocked_call_rejected_witness :
    waitForRateLimit ⟨10, 0, 5, 60000⟩ 10 (RateLimitState.mk [] 0 0 0 0 100) =
      Except.error ⟨BlockKind.ipBanned, 90⟩ :=
  (C3_blocked_call_rejected ⟨10, 0, 5, 60000⟩ 10 (RateLimitState.mk [] 0 0 0 0 100)).1
    (by norm_num)

/-- The sleeps performed by an admitted call. -/
def admissionWaits : Except BlockInfo (List ℕ × RateLimitState) → List ℕ
  | Except.ok (ws, _) => ws
  | Except.error _ => []

/-- C5: when the call is not blocked and, after evicting entries older than
60 s, the ring still holds at least `maxRequestsPerMinute` timestamps, the
call is admitted and the first wait performed is
`60000 - (now - oldest) + 100` ms, which ends exactly when the oldest
surviving timestamp leaves the 60-second window plus 100 ms slack. -/
theorem C5_ring_full_waits_for_oldest (cfg : RateLimitConfig) (now : ℕ)
    (s s1 : RateLimitState) (oldest : ℕ)
    (hnb : shouldBlockRequest now s = (none, s1))
    (hfull : (s1.requestTimestamps.filter (fun t => now - t < 60000)).length ≥
      cfg.maxRequestsPerMinute)
    (hold : (s1.requestTimestamps.filter (fun t => now - t < 60000)).head? = some oldest)
    (hpast : oldest ≤ now) :
    isAdmitted (waitForRateLimit cfg now s) = true ∧
    (admissionWaits (waitForRateLimit cfg now s)).head? =
      some (60000 - (now - oldest) + 100) ∧
    now + (60000 - (now - oldest) + 100) = oldest + 60000 + 100 := by
  have hmem : oldest ∈ s1.requestTimestamps.filter (fun t => now - t < 60000) := by
    cases hl : s1.requestTimestamps.filter (fun t => now - t < 60000) with
    | nil => rw [hl] at hold; cases hold
    | cons a l =>
      rw [hl] at hold
      simp only [List.head?_cons, Option.some.injEq] at hold
      rw [hold]
      exact List.mem_cons_self _ _
  have hlt : now - oldest < 60000 := by
    have := List.of_mem_filter hmem
    simpa using this
  refine ⟨?_, ?_, by omega⟩
  · simp only [waitForRateLimit, hnb, isAdmitted]
  · simp only [waitForRateLimit, hnb, admissionWaits]
    rw [if_pos hfull, hold]
    rw [if_pos (show (0:ℕ) < 60000 - (now - oldest) + 100 by omega)]
    simp

/-- Witness for C5: one recorded request at t=50000, limit 1/minute, call
at t=60000 must sleep 50100 ms (until t=110100 = 50000 + 60100). -/
theorem C5_ring_full_waits_for_oldest_witness :
    isAdmitted (waitForRateLimit ⟨1, 0, 5, 60000⟩ 60000
        (RateLimitState.mk [50000] 50000 0 0 0 0)) = true ∧
    (admissionWaits (waitForRateLimit ⟨1, 0, 5, 60000⟩ 60000
        (RateLimitState.mk [50000] 50000 0 0 0 0))).head? =
      some (60000 - (60000 - 50000) + 100) ∧
    60000 + (60000 - (60000 - 50000) + 100) = 50000 + 60000 + 100 :=
  C5_ring_full_waits_for_oldest ⟨1, 0, 5, 60000⟩ 60000
    (RateLimitState.mk [50000] 50000 0 0 0 0) (RateLimitState.mk [50000] 50000 0 0 0 0)
    50000 (by decide) (by decide) (by decide) (by decide)

end AutoTrading

namespace AutoTrading

/-! ### ResolveFailureTracker — src/scheduler/inconsistentStateResolver.ts

`recordFailure(stateId)` bumps the per-state count (a `Map<number,
number>`) and the global `consecutiveFailures`; at `count >= 5` it sends an
`AlertLevel.ERROR` e-mail alert.  `recordSuccess` deletes the state's entry
and zeroes `consecutiveFailures`.  `checkOverallFailures` sends an
`AlertLevel.CRITICAL` alert when `consecutiveFailures >= 10`. -/

/-- Models `AlertLevel` from src/utils/emailAlert.ts. -/
inductive AlertLevel where
  | INFO
  | WARNING
  | ERROR
  | CRITICAL
deriving DecidableEq, Repr

/-- An emitted alert (the fields the claims mention). -/
structure Alert where
  level : AlertLevel
  title : String
deriving DecidableEq, Repr

/-- Tracker state: global consecutive-failure count and the per-state map,
kept in insertion order like a JS `Map`. -/
structure ResolveFailureTracker where
  consecutiveFailures : ℕ
  failedStates : List (ℕ × ℕ)
deriving DecidableEq, Repr

/-- Models `this.failedStates.get(stateId) || 0`. -/
def getFailCount (m : List (ℕ × ℕ)) (stateId : ℕ) : ℕ :=
  ((m.find? (fun p => p.1 == stateId)).map Prod.snd).getD 0

/-- Models `this.failedStates.set(stateId, count)` — JS `Map.set` replaces an
existing key in place and otherwise appends. -/
def setFailCount (m : List (ℕ × ℕ)) (stateId cnt : ℕ) : List (ℕ × ℕ) :=
  if m.any (fun p => p.1 == stateId) then
    m.map (fun p => if p.1 == stateId then (p.1, cnt) else p)
  else m ++ [(stateId, cnt)]

/-- Models `ResolveFailureTracker.recordFailure`, returning the new tracker state
and the alerts sent. -/
def recordFailure (t : ResolveFailureTracker) (stateId : ℕ) :
    ResolveFailureTracker × List Alert :=
  let count := getFailCount t.failedStates stateId + 1
  ({ consecutiveFailures := t.consecutiveFailures + 1
     failedStates := setFailCount t.failedStates stateId count },
   if count ≥ 5 then [{ level := AlertLevel.ERROR, title := "自动修复连续失败" }] else [])

/-- Models `ResolveFailureTracker.recordSuccess`. -/
def recordSuccess (t : ResolveFailureTracker) (stateId : ℕ) : ResolveFailureTracker :=
  { consecutiveFailures := 0
    failedStates := t.failedStates.filter (fun p => !(p.1 == stateId)) }

/-- Models `ResolveFailureTracker.checkOverallFailures`. -/
def checkOverallFailures (t : ResolveFailureTracker) : List Alert :=
  if t.consecutiveFailures ≥ 10 then
    [{ level := AlertLevel.CRITICAL, title := "自动修复系统异常" }]
  else []

theorem getFailCount_setFailCount (m : List (ℕ × ℕ)) (k c : ℕ) :
    getFailCount (setFailCount m k c) k = c := by
  induction m with
  | nil => simp [setFailCount, getFailCount]
  | cons p rest ih =>
    by_cases hp : p.1 == k
    · have hpe : p.1 = k := by simpa using hp
      simp [setFailCount, getFailCount, hp, hpe]
    · by_cases ha : rest.any (fun q => q.1 == k)
      · simp only [setFailCount, ha, if_pos, List.any_cons, hp, Bool.false_or, if_true,
          List.map_cons, getFailCount, List.find?_cons, if_neg] at ih ⊢
        simpa [getFailCount, hp] using ih
      · simp only [setFailCount, ha, List.any_cons, hp, Bool.false_or, if_false,
          List.cons_append, getFailCount, List.find?_cons] at ih ⊢
        simpa [getFailCount, hp] using ih

end AutoTrading

namespace AutoTrading

/-- C4 fails as stated: the fifth consecutive failure on a single row emits
an ERROR-level alert, not a WARNING-level one. -/
theorem C4_counterexample :
    (recordFailure (recordFailure (recordFailure (recordFailure
        (recordFailure ⟨0, []⟩ 1).1 1).1 1).1 1).1 1).2.map Alert.level =
      [AlertLevel.ERROR] ∧
    AlertLevel.ERROR ≠ AlertLevel.WARNING := by
  decide

/-- C4 (amended): each failed repair attempt increments both the row's
failure count and the global consecutive-failure count; once a row's count
reaches 5 the failure emits exactly one ERROR-level alert (and none
before); the overall check emits exactly one CRITICAL-level alert once the
global consecutive count reaches 10 (and none before). -/
theorem C4_failure_alerts (t : ResolveFailureTracker) (stateId : ℕ) :
    ((recordFailure t stateId).1.consecutiveFailures = t.consecutiveFailures + 1) ∧
    (getFailCount (recordFailure t stateId).1.failedStates stateId =
      getFailCount t.failedStates stateId + 1) ∧
    (5 ≤ getFailCount t.failedStates stateId + 1 →
      (recordFailure t stateId).2.map Alert.level = [AlertLevel.ERROR]) ∧
    (getFailCount t.failedStates stateId + 1 < 5 →
      (recordFailure t stateId).2 = []) ∧
    (10 ≤ t.consecutiveFailures →
      (checkOverallFailures t).map Alert.level = [AlertLevel.CRITICAL]) ∧
    (t.consecutiveFailures < 10 → checkOverallFailures t = []) := by
  refine ⟨rfl, ?_, fun h5 => ?_, fun h5 => ?_, fun h10 => ?_, fun h10 => ?_⟩
  · simpa [recordFailure] using
      getFailCount_setFailCount t.failedStates stateId (getFailCount t.failedStates stateId + 1)
  · simp [recordFailure, h5]
  · simp [recordFailure, Nat.not_le.2 h5]
  · simp [checkOverallFailures, h10]
  · simp [checkOverallFailures, Nat.not_le.2 h10]

/-- Witness for C4 (amended): a row already at 4 failures alerts at ERROR
level on the next failure, and a tracker at 10 consecutive failures raises
the CRITICAL alert. -/
theorem C4_failure_alerts_witness :
    ((recordFailure ⟨9, [(7, 4)]⟩ 7).2.map Alert.level = [AlertLevel.ERROR]) ∧
    ((checkOverallFailures ⟨10, [(7, 5)]⟩).map Alert.level = [AlertLevel.CRITICAL]) :=
  ⟨(C4_failure_alerts ⟨9, [(7, 4)]⟩ 7).2.2.1 (by decide),
   (C4_failure_alerts ⟨10, [(7, 5)]⟩ 7).2.2.2.2.1 (by decide)⟩

end AutoTrading

namespace AutoTrading

/-! ### InconsistentStateResolver — src/scheduler/inconsistentStateResolver.ts

The SQLite store is a record of row lists; ISO-8601 timestamp strings are
modelled as naturals (ISO strings compare like their instants).  The four
writes of `resolveClosePosition`'s BEGIN/COMMIT block are each fallible
(driver failure injected as a flag); a failure of any statement triggers
ROLLBACK, leaving the store as it was. -/

/-- A `positions` row (the columns the resolver's DELETE matches on). -/
structure PositionRow where
  symbol : String
  side : String
deriving DecidableEq, Repr

/-- A `price_orders` row (columns read/written by the resolver). -/
structure PriceOrderRow where
  symbol : String
  side : String
  status : String
  updatedAt : ℕ
deriving DecidableEq, Repr

/-- A `trades` row. -/
structure TradeRow where
  orderId : String
  symbol : String
  side : String
  type : String
  price : ℚ
  quantity : ℚ
  leverage : ℚ
  pnl : Option ℚ
  fee : ℚ
  timestamp : ℕ
  status : String
deriving DecidableEq, Repr

/-- A `position_close_events` row. -/
structure CloseEventRow where
  symbol : String
  side : String
  entryPrice : ℚ
  closePrice : ℚ
  quantity : ℚ
  leverage : ℚ
  pnl : ℚ
  pnlPercent : ℚ
  fee : ℚ
  closeReason : String
  triggerType : String
  orderId : String
  createdAt : ℕ
  processed : ℕ
deriving DecidableEq, Repr

/-- An `inconsistent_states` row. -/
structure InconsistentStateRow where
  id : ℕ
  operation : String
  symbol : String
  side : String
  exchangeOrderId : String
  createdAt : ℕ
  resolved : ℕ
  resolvedAt : Option ℕ
  resolvedBy : Option String
deriving DecidableEq, Repr

/-- The persistent store. -/
structure Store where
  positions : List PositionRow
  priceOrders : List PriceOrderRow
  trades : List TradeRow
  closeEvents : List CloseEventRow
  inconsistentStates : List InconsistentStateRow
deriving DecidableEq, Repr

/-- One exchange position as returned by `getPositions` (after the
resolver's `parsePositionSize`). -/
structure ExchangePosition where
  contract : String
  size : ℚ
deriving DecidableEq, Repr

/-- One exchange fill as returned by `getMyTrades`; the resolver matches it
by order id / trade id and reads `price` and `size`, while `fee` is present
on the record but never read by the resolver. -/
structure ExchangeTrade where
  id : String
  orderId : String
  price : ℚ
  size : ℚ
  fee : ℚ
deriving DecidableEq, Repr

/-- Models `DELETE FROM positions WHERE symbol = ? AND side = ?`. -/
def deletePositionRows (symbol side : String) (s : Store) : Store :=
  { s with positions :=
      s.positions.filter (fun p => !(p.symbol == symbol && p.side == side)) }

/-- Models `UPDATE price_orders SET status = 'cancelled', updated_at = ? WHERE
symbol = ? AND side = ? AND status = 'active'`. -/
def cancelActivePriceOrders (symbol side : String) (ts : ℕ) (s : Store) : Store :=
  { s with priceOrders :=
      s.priceOrders.map (fun o =>
        if o.symbol == symbol && o.side == side && o.status == "active" then
          { o with status := "cancelled", updatedAt := ts }
        else o) }

/-- Models `INSERT INTO trades ...`. -/
def insertTradeRow (r : TradeRow) (s : Store) : Store :=
  { s with trades := s.trades ++ [r] }

/-- Models `INSERT INTO position_close_events ...`. -/
def insertCloseEventRow (e : CloseEventRow) (s : Store) : Store :=
  { s with closeEvents := s.closeEvents ++ [e] }

/-- One SQL statement inside the transaction: the driver either throws
(injected via `failThis`) or applies the write. -/
def runWrite (failThis : Bool) (w : Store → Store) (s : Store) : Option Store :=
  if failThis then none else some (w s)

/-- The `BEGIN TRANSACTION … COMMIT` block of `resolveClosePosition`
(delete position, cancel triggers, insert close trade, insert close
event); any statement failure reaches the `catch` that issues `ROLLBACK`,
so the store reverts to its initial state and the method returns false. -/
def closePositionTransaction (fails : Fin 4 → Bool) (symbol side : String)
    (tradeRow : TradeRow) (eventRow : CloseEventRow) (ts : ℕ) (s0 : Store) :
    Store × Bool :=
  match (runWrite (fails 0) (deletePositionRows symbol side) s0).bind
      (fun s1 => (runWrite (fails 1) (cancelActivePriceOrders symbol side ts) s1).bind
      (fun s2 => (runWrite (fails 2) (insertTradeRow tradeRow) s2).bind
      (fun s3 => runWrite (fails 3) (insertCloseEventRow eventRow) s3))) with
  | some s4 => (s4, true)
  | none => (s0, false)

/-- Models `'inverse' | 'linear'` (`getContractType`). -/
inductive ContractType where
  | inverse
  | linear
deriving DecidableEq, Repr

/-- Models `exchangeClient.calculatePnl`.  The inverse case is
`priceChange * quantity * quantoMultiplier` from the Gate client; the
linear case is the capability-interface contract `(Δ) * qty` (the linear
adapter itself lives outside the provided sources). -/
def calculatePnl (ct : ContractType) (quantoMultiplier entryPrice exitPrice quantity : ℚ)
    (side : String) : ℚ :=
  let priceChange := if side == "long" then exitPrice - entryPrice else entryPrice - exitPrice
  match ct with
  | ContractType.inverse => priceChange * quantity * quantoMultiplier
  | ContractType.linear => priceChange * quantity

/-- The resolver's position value at a given price: inverse contracts use
`quantity * quantoMultiplier * price`, linear ones `quantity * price`. -/
def positionNotional (ct : ContractType) (quantoMultiplier quantity price : ℚ) : ℚ :=
  match ct with
  | ContractType.inverse => quantity * quantoMultiplier * price
  | ContractType.linear => quantity * price

/-- Models `SELECT * FROM trades WHERE symbol = ? AND side = ? AND type = 'open'
ORDER BY timestamp DESC LIMIT 1`. -/
def latestOpenTrade (trades : List TradeRow) (symbol side : String) : Option TradeRow :=
  (trades.filter (fun t => t.symbol == symbol && t.side == side && t.type == "open")).foldl
    (fun acc t =>
      match acc with
      | none => some t
      | some b => if t.timestamp > b.timestamp then some t else some b)
    none

/-- Models `openTrade.leverage || 1`. -/
def resolverLeverage (openTrade : TradeRow) : ℚ :=
  if openTrade.leverage = 0 then 1 else openTrade.leverage

/-- Models `totalFee = positionValue * 0.001` — the flat 0.1% estimate the
resolver always applies. -/
def resolverFee (ct : ContractType) (quantoMultiplier : ℚ) (closeTrade : ExchangeTrade) : ℚ :=
  positionNotional ct quantoMultiplier |closeTrade.size| closeTrade.price * (1/1000)

/-- The close `trades` row the transaction inserts. -/
def resolverTradeRow (state : InconsistentStateRow) (ct : ContractType)
    (quantoMultiplier : ℚ) (closeTrade : ExchangeTrade) (openTrade : TradeRow)
    (ts : ℕ) : TradeRow :=
  let quantity := |closeTrade.size|
  let grossPnl := calculatePnl ct quantoMultiplier openTrade.price closeTrade.price
    quantity state.side
  let totalFee := resolverFee ct quantoMultiplier closeTrade
  { orderId := state.exchangeOrderId, symbol := state.symbol, side := state.side
    type := "close", price := closeTrade.price, quantity := quantity
    leverage := resolverLeverage openTrade, pnl := some (grossPnl - totalFee)
    fee := totalFee, timestamp := ts, status := "filled" }

/-- The `position_close_events` row the transaction inserts. -/
def resolverEventRow (state : InconsistentStateRow) (ct : ContractType)
    (quantoMultiplier : ℚ) (closeTrade : ExchangeTrade) (openTrade : TradeRow)
    (ts : ℕ) : CloseEventRow :=
  let quantity := |closeTrade.size|
  let grossPnl := calculatePnl ct quantoMultiplier openTrade.price closeTrade.price
    quantity state.side
  let totalFee := resolverFee ct quantoMultiplier closeTrade
  let netPnl := grossPnl - totalFee
  let margin := positionNotional ct quantoMultiplier quantity openTrade.price /
    resolverLeverage openTrade
  { symbol := state.symbol, side := state.side, entryPrice := openTrade.price
    closePrice := closeTrade.price, quantity := quantity
    leverage := resolverLeverage openTrade, pnl := netPnl
    pnlPercent := netPnl / margin * 100, fee := totalFee
    closeReason := "system_recovered", triggerType := "auto_fix"
    orderId := state.exchangeOrderId, createdAt := ts, processed := 1 }

/-- Models `InconsistentStateResolver.resolveClosePosition` (also the body of
`resolvePriceOrderTriggered`, which delegates to it): verify the exchange
shows no live position for the contract, find the matching fill, find the
latest open trade, then run the transactional repair. -/
def resolveClosePosition (state : InconsistentStateRow)
    (exchangePositions : List ExchangePosition) (exchangeTrades : List ExchangeTrade)
    (ct : ContractType) (quantoMultiplier : ℚ) (fails : Fin 4 → Bool) (ts : ℕ)
    (s0 : Store) : Store × Bool :=
  let contract := state.symbol ++ "_USDT"
  let positionExists :=
    exchangePositions.any (fun p => p.contract == contract && decide (0 < |p.size|))
  if positionExists then (s0, false)
  else
    match exchangeTrades.find? (fun t =>
        t.orderId == state.exchangeOrderId || t.id == state.exchangeOrderId) with
    | none => (s0, false)
    | some closeTrade =>
      match latestOpenTrade s0.trades state.symbol state.side with
      | none => (s0, false)
      | some openTrade =>
        closePositionTransaction fails state.symbol state.side
          (resolverTradeRow state ct quantoMultiplier closeTrade openTrade ts)
          (resolverEventRow state ct quantoMultiplier closeTrade openTrade ts)
          ts s0

/-- Models `UPDATE inconsistent_states SET resolved = 1, resolved_at = ?,
resolved_by = 'auto' WHERE id = ?` — issued by `resolveInconsistentStates`
after a successful repair. -/
def markResolved (stateId ts : ℕ) (s : Store) : Store :=
  { s with inconsistentStates :=
      s.inconsistentStates.map (fun r =>
        if r.id == stateId then
          { r with resolved := 1, resolvedAt := some ts, resolvedBy := some "auto" }
        else r) }

/-- The per-row step of `resolveInconsistentStates`: run the repair and, on
success, mark the inconsistent state resolved by `'auto'`. -/
def processInconsistentState (state : InconsistentStateRow)
    (exchangePositions : List ExchangePosition) (exchangeTrades : List ExchangeTrade)
    (ct : ContractType) (quantoMultiplier : ℚ) (fails : Fin 4 → Bool) (ts : ℕ)
    (s0 : Store) : Store × Bool :=
  let res := resolveClosePosition state exchangePositions exchangeTrades ct
    quantoMultiplier fails ts s0
  if res.2 then (markResolved state.id ts res.1, true) else res

end AutoTrading

namespace AutoTrading

/-- A failing statement anywhere in the BEGIN/COMMIT block rolls the whole
transaction back: the store is unchanged and the repair reports failure. -/
theorem closePositionTransaction_rollback (fails : Fin 4 → Bool) (symbol side : String)
    (tradeRow : TradeRow) (eventRow : CloseEventRow) (ts : ℕ) (s0 : Store)
    (h : fails 0 = true ∨ fails 1 = true ∨ fails 2 = true ∨ fails 3 = true) :
    closePositionTransaction fails symbol side tradeRow eventRow ts s0 = (s0, false) := by
  unfold closePositionTransaction runWrite
  cases hf0 : fails 0 <;> cases hf1 : fails 1 <;> cases hf2 : fails 2 <;>
    cases hf3 : fails 3 <;> simp_all

/-- With no statement failing, the transaction commits the four writes in
order. -/
theorem closePositionTransaction_commit (fails : Fin 4 → Bool) (symbol side : String)
    (tradeRow : TradeRow) (eventRow : CloseEventRow) (ts : ℕ) (s0 : Store)
    (h : ∀ i, fails i = false) :
    closePositionTransaction fails symbol side tradeRow eventRow ts s0 =
      (insertCloseEventRow eventRow (insertTradeRow tradeRow
        (cancelActivePriceOrders symbol side ts (deletePositionRows symbol side s0))),
       true) := by
  unfold closePositionTransaction runWrite
  simp [h 0, h 1, h 2, h 3]

/-- With the exchange flat, a matching fill and an open trade on record, the
repair reduces to the transactional block over the synthesized rows. -/
theorem resolveClosePosition_eq (state : InconsistentStateRow)
    (exchangePositions : List ExchangePosition) (exchangeTrades : List ExchangeTrade)
    (ct : ContractType) (qm : ℚ) (fails : Fin 4 → Bool) (ts : ℕ) (s0 : Store)
    (closeTrade : ExchangeTrade) (openTrade : TradeRow)
    (hnp : exchangePositions.any (fun p =>
      p.contract == state.symbol ++ "_USDT" && decide (0 < |p.size|)) = false)
    (hfind : exchangeTrades.find? (fun t =>
      t.orderId == state.exchangeOrderId || t.id == state.exchangeOrderId) = some closeTrade)
    (hopen : latestOpenTrade s0.trades state.symbol state.side = some openTrade) :
    resolveClosePosition state exchangePositions exchangeTrades ct qm fails ts s0 =
      closePositionTransaction fails state.symbol state.side
        (resolverTradeRow state ct qm closeTrade openTrade ts)
        (resolverEventRow state ct qm closeTrade openTrade ts) ts s0 := by
  simp only [resolveClosePosition, hnp, hfind, hopen, Bool.false_eq_true, if_false]

/-- Rollback behaviour lifted through the per-row driver step. -/
theorem processInconsistentState_rollback (state : InconsistentStateRow)
    (exchangePositions : List ExchangePosition) (exchangeTrades : List ExchangeTrade)
    (ct : ContractType) (qm : ℚ) (fails : Fin 4 → Bool) (ts : ℕ) (s0 : Store)
    (closeTrade : ExchangeTrade) (openTrade : TradeRow)
    (hnp : exchangePositions.any (fun p =>
      p.contract == state.symbol ++ "_USDT" && decide (0 < |p.size|)) = false)
    (hfind : exchangeTrades.find? (fun t =>
      t.orderId == state.exchangeOrderId || t.id == state.exchangeOrderId) = some closeTrade)
    (hopen : latestOpenTrade s0.trades state.symbol state.side = some openTrade)
    (h : fails 0 = true ∨ fails 1 = true ∨ fails 2 = true ∨ fails 3 = true) :
    processInconsistentState state exchangePositions exchangeTrades ct qm fails ts s0 =
      (s0, false) := by
  simp only [processInconsistentState,
    resolveClosePosition_eq state exchangePositions exchangeTrades ct qm fails ts s0
      closeTrade openTrade hnp hfind hopen,
    closePositionTransaction_rollback fails state.symbol state.side _ _ ts s0 h]
  simp

/-- Commit behaviour lifted through the per-row driver step: the four
writes commit and the inconsistent-state row is marked resolved by
`'auto'`. -/
theorem processInconsistentState_commit (state : InconsistentStateRow)
    (exchangePositions : List ExchangePosition) (exchangeTrades : List ExchangeTrade)
    (ct : ContractType) (qm : ℚ) (fails : Fin 4 → Bool) (ts : ℕ) (s0 : Store)
    (closeTrade : ExchangeTrade) (openTrade : TradeRow)
    (hnp : exchangePositions.any (fun p =>
      p.contract == state.symbol ++ "_USDT" && decide (0 < |p.size|)) = false)
    (hfind : exchangeTrades.find? (fun t =>
      t.orderId == state.exchangeOrderId || t.id == state.exchangeOrderId) = some closeTrade)
    (hopen : latestOpenTrade s0.trades state.symbol state.side = some openTrade)
    (h : ∀ i, fails i = false) :
    processInconsistentState state exchangePositions exchangeTrades ct qm fails ts s0 =
      (markResolved state.id ts
        (insertCloseEventRow (resolverEventRow state ct qm closeTrade openTrade ts)
          (insertTradeRow (resolverTradeRow state ct qm closeTrade openTrade ts)
            (cancelActivePriceOrders state.symbol state.side ts
              (deletePositionRows state.symbol state.side s0)))),
       true) := by
  simp only [processInconsistentState,
    resolveClosePosition_eq state exchangePositions exchangeTrades ct qm fails ts s0
      closeTrade openTrade hnp hfind hopen,
    closePositionTransaction_commit fails state.symbol state.side _ _ ts s0 h]
  simp

end AutoTrading

namespace AutoTrading

/-- C1: when the reconciler repairs an InconsistentState row by
synthesizing a close, the four store writes (delete the Position row, mark
active PriceOrder rows cancelled, insert the close Trade row, insert the
PositionCloseEvent row) form one transaction: if any of them fails the
store is left unchanged and the row stays unresolved; on success all four
effects are present and the row is marked `resolved = 1` with
`resolvedBy = 'auto'`. -/
theorem C1_transactional_close_repair (state : InconsistentStateRow)
    (exchangePositions : List ExchangePosition) (exchangeTrades : List ExchangeTrade)
    (ct : ContractType) (qm : ℚ) (fails : Fin 4 → Bool) (ts : ℕ) (s0 : Store)
    (closeTrade : ExchangeTrade) (openTrade : TradeRow)
    (hnp : exchangePositions.any (fun p =>
      p.contract == state.symbol ++ "_USDT" && decide (0 < |p.size|)) = false)
    (hfind : exchangeTrades.find? (fun t =>
      t.orderId == state.exchangeOrderId || t.id == state.exchangeOrderId) = some closeTrade)
    (hopen : latestOpenTrade s0.trades state.symbol state.side = some openTrade) :
    ((fails 0 = true ∨ fails 1 = true ∨ fails 2 = true ∨ fails 3 = true) →
      processInconsistentState state exchangePositions exchangeTrades ct qm fails ts s0 =
        (s0, false)) ∧
    ((∀ i, fails i = false) →
      (processInconsistentState state exchangePositions exchangeTrades ct qm fails ts s0).2 =
        true ∧
      (processInconsistentState state exchangePositions exchangeTrades ct qm fails ts
          s0).1.positions =
        s0.positions.filter (fun p => !(p.symbol == state.symbol && p.side == state.side)) ∧
      (∀ o ∈ (processInconsistentState state exchangePositions exchangeTrades ct qm fails ts
          s0).1.priceOrders,
        ¬(o.symbol = state.symbol ∧ o.side = state.side ∧ o.status = "active")) ∧
      resolverTradeRow state ct qm closeTrade openTrade ts ∈
        (processInconsistentState state exchangePositions exchangeTrades ct qm fails ts
          s0).1.trades ∧
      resolverEventRow state ct qm closeTrade openTrade ts ∈
        (processInconsistentState state exchangePositions exchangeTrades ct qm fails ts
          s0).1.closeEvents ∧
      (∀ r ∈ (processInconsistentState state exchangePositions exchangeTrades ct qm fails ts
          s0).1.inconsistentStates,
        r.id = state.id → r.resolved = 1 ∧ r.resolvedBy = some "auto")) := by
  constructor
  · exact fun h => processInconsistentState_rollback state exchangePositions exchangeTrades
      ct qm fails ts s0 closeTrade openTrade hnp hfind hopen h
  · intro h
    rw [processInconsistentState_commit state exchangePositions exchangeTrades ct qm fails
      ts s0 closeTrade openTrade hnp hfind hopen h]
    refine ⟨rfl, rfl, ?_, ?_, ?_, ?_⟩
    · intro o ho
      simp only [markResolved, insertCloseEventRow, insertTradeRow,
        cancelActivePriceOrders, deletePositionRows] at ho
      rcases List.mem_map.1 ho with ⟨x, hx, rfl⟩
      by_cases hm : (x.symbol == state.symbol && x.side == state.side &&
          x.status == "active") = true
      · simp only [if_pos hm]
        rintro ⟨-, -, h3⟩
        simp at h3
      · simp only [if_neg hm]
        rintro ⟨h1, h2, h3⟩
        exact hm (by simp [h1, h2, h3])
    · simp [markResolved, insertCloseEventRow, insertTradeRow, cancelActivePriceOrders,
        deletePositionRows]
    · simp [markResolved, insertCloseEventRow, insertTradeRow, cancelActivePriceOrders,
        deletePositionRows]
    · intro r hr
      simp only [markResolved, insertCloseEventRow, insertTradeRow,
        cancelActivePriceOrders, deletePositionRows] at hr
      rcases List.mem_map.1 hr with ⟨x, hx, rfl⟩
      intro hid
      by_cases hm : (x.id == state.id) = true
      · have hme : x.id = state.id := by simpa using hm
        simp [hme]
      · rw [if_neg hm] at hid ⊢
        exact absurd hid (by simpa using hm)

/-- Sample InconsistentState row for the concrete repair scenario. -/
def sampleState : InconsistentStateRow :=
  ⟨1, "close_position", "ETH", "short", "987654321", 0, 0, none, none⟩

/-- Sample open trade on record for (ETH, short). -/
def sampleOpenTrade : TradeRow :=
  ⟨"111", "ETH", "short", "open", 2100, 3, 2, none, 1/10, 5, "filled"⟩

/-- Sample store holding the stale position, one active trigger, the open
trade and the unresolved InconsistentState row. -/
def sampleStore : Store :=
  ⟨[⟨"ETH", "short"⟩], [⟨"ETH", "short", "active", 0⟩], [sampleOpenTrade], [],
   [sampleState]⟩

/-- Sample matching exchange fill for order 987654321; its actual fee is
2.5 USDT. -/
def sampleFill : ExchangeTrade := ⟨"999", "987654321", 2000, -3, 5/2⟩

/-- Witness for C1: the concrete repair succeeds and reports resolution. -/
theorem C1_transactional_close_repair_witness :
    (processInconsistentState sampleState [] [sampleFill] ContractType.inverse (1/100)
      (fun _ => false) 10 sampleStore).2 = true :=
  ((C1_transactional_close_repair sampleState [] [sampleFill] ContractType.inverse (1/100)
      (fun _ => false) 10 sampleStore sampleFill sampleOpenTrade rfl rfl rfl).2
    (fun _ => rfl)).1

end AutoTrading

namespace AutoTrading

/-- C2 fails as stated: the matching fill carries an actual fee of 2.5, yet
the close Trade row the repair writes carries `notional * 0.001 = 0.06`
(quantity 3, multiplier 0.01, price 2000 ⇒ notional 60). -/
theorem C2_counterexample :
    sampleFill.fee = 5/2 ∧
    ((resolveClosePosition sampleState [] [sampleFill] ContractType.inverse (1/100)
        (fun _ => false) 10 sampleStore).1.trades.map TradeRow.fee) = [1/10, 3/50] ∧
    (3/50 : ℚ) ≠ 5/2 := by
  refine ⟨rfl, ?_, by norm_num⟩
  norm_num [resolveClosePosition, sampleState, sampleStore, sampleFill, sampleOpenTrade,
    latestOpenTrade, closePositionTransaction, runWrite, deletePositionRows,
    cancelActivePriceOrders, insertTradeRow, insertCloseEventRow, resolverTradeRow,
    resolverFee, positionNotional, resolverLeverage, calculatePnl, resolverEventRow]

/-- C2 (amended): the fee the reconciler writes into both the close Trade
row and the PositionCloseEvent always equals the close notional times the
flat 0.1% rate, regardless of the actual fee carried by the matching fill
(and of any configured taker rate). -/
theorem C2_synthesized_close_fee (state : InconsistentStateRow)
    (exchangePositions : List ExchangePosition) (exchangeTrades : List ExchangeTrade)
    (ct : ContractType) (qm : ℚ) (fails : Fin 4 → Bool) (ts : ℕ) (s0 : Store)
    (closeTrade : ExchangeTrade) (openTrade : TradeRow)
    (hnp : exchangePositions.any (fun p =>
      p.contract == state.symbol ++ "_USDT" && decide (0 < |p.size|)) = false)
    (hfind : exchangeTrades.find? (fun t =>
      t.orderId == state.exchangeOrderId || t.id == state.exchangeOrderId) = some closeTrade)
    (hopen : latestOpenTrade s0.trades state.symbol state.side = some openTrade)
    (h : ∀ i, fails i = false) :
    resolverTradeRow state ct qm closeTrade openTrade ts ∈
      (processInconsistentState state exchangePositions exchangeTrades ct qm fails ts
        s0).1.trades ∧
    resolverEventRow state ct qm closeTrade openTrade ts ∈
      (processInconsistentState state exchangePositions exchangeTrades ct qm fails ts
        s0).1.closeEvents ∧
    (resolverTradeRow state ct qm closeTrade openTrade ts).fee =
      positionNotional ct qm |closeTrade.size| closeTrade.price * (1/1000) ∧
    (resolverEventRow state ct qm closeTrade openTrade ts).fee =
      positionNotional ct qm |closeTrade.size| closeTrade.price * (1/1000) ∧
    (∀ actualFee : ℚ,
      resolverTradeRow state ct qm { closeTrade with fee := actualFee } openTrade ts =
        resolverTradeRow state ct qm closeTrade openTrade ts ∧
      resolverEventRow state ct qm { closeTrade with fee := actualFee } openTrade ts =
        resolverEventRow state ct qm closeTrade openTrade ts) := by
  rw [processInconsistentState_commit state exchangePositions exchangeTrades ct qm fails
    ts s0 closeTrade openTrade hnp hfind hopen h]
  refine ⟨?_, ?_, rfl, rfl, fun actualFee => ⟨rfl, rfl⟩⟩
  · simp [markResolved, insertCloseEventRow, insertTradeRow, cancelActivePriceOrders,
      deletePositionRows]
  · simp [markResolved, insertCloseEventRow, insertTradeRow, cancelActivePriceOrders,
      deletePositionRows]

/-- Witness for C2 (amended) on the concrete repair scenario. -/
theorem C2_synthesized_close_fee_witness :
    (resolverTradeRow sampleState ContractType.inverse (1/100) sampleFill sampleOpenTrade
      10).fee =
      positionNotional ContractType.inverse (1/100) |sampleFill.size| sampleFill.price *
        (1/1000) :=
  (C2_synthesized_close_fee sampleState [] [sampleFill] ContractType.inverse (1/100)
    (fun _ => false) 10 sampleStore sampleFill sampleOpenTrade rfl rfl rfl
    (fun _ => rfl)).2.2.1

end AutoTrading

namespace AutoTrading

/-! ### GateExchangeClient.setPositionStopLoss — result logic

From src/agents/compactPrompt.ts lines 1231-1486.  The environment captures
the outcomes of the exchange calls the method makes: `getPositions`
(throwing reaches the outer catch), the per-branch ticker fetch (throwing,
or a non-positive parsed price, is caught by that branch's catch), and the
two `createPriceTriggeredOrder` calls.  The cancellation of pre-existing
trigger orders swallows its errors and has no effect on the result. -/

/-- The `{success, stopLossOrderId?, takeProfitOrderId?}` result (the
`message` string is omitted). -/
structure StopLossTakeProfitResult where
  success : Bool
  stopLossOrderId : Option String
  takeProfitOrderId : Option String
deriving DecidableEq, Repr

/-- Outcomes of the exchange calls made during one `setPositionStopLoss`
invocation. -/
structure SetSlTpEnv where
  getPositionsFails : Bool
  positionSize : Option ℚ
  slTickerFails : Bool
  slTickerPrice : ℚ
  slCreateFails : Bool
  slOrderId : String
  tpTickerFails : Bool
  tpTickerPrice : ℚ
  tpCreateFails : Bool
  tpOrderId : String
deriving DecidableEq, Repr

/-- Models `x !== undefined && x > 0` — the guard both trigger blocks use on
their price argument. -/
def positiveRequested (x : Option ℚ) : Bool :=
  match x with
  | some v => decide (0 < v)
  | none => false

/-- The take-profit block of `setPositionStopLoss` (lines 1376-1470): when
a positive take-profit is requested and its branch fails, the call still
succeeds if a stop-loss order was created earlier in the same call, and
fails otherwise. -/
def tpPhase (env : SetSlTpEnv) (takeProfit : Option ℚ) (slId : Option String) :
    StopLossTakeProfitResult :=
  if positiveRequested takeProfit = true then
    if env.tpTickerFails ∨ env.tpTickerPrice ≤ 0 ∨ env.tpCreateFails then
      match slId with
      | some i => ⟨true, some i, none⟩
      | none => ⟨false, none, none⟩
    else ⟨true, slId, some env.tpOrderId⟩
  else ⟨true, slId, none⟩

/-- Models `GateExchangeClient.setPositionStopLoss`: find the position (fail when
absent or of size 0), create the stop-loss trigger when requested (its
branch returns failure for the whole call), then run the take-profit
phase. -/
def setPositionStopLoss (env : SetSlTpEnv) (stopLoss takeProfit : Option ℚ) :
    StopLossTakeProfitResult :=
  if env.getPositionsFails then ⟨false, none, none⟩
  else
    match env.positionSize with
    | none => ⟨false, none, none⟩
    | some posSize =>
      if |posSize| = 0 then ⟨false, none, none⟩
      else
        if positiveRequested stopLoss = true then
          if env.slTickerFails ∨ env.slTickerPrice ≤ 0 ∨ env.slCreateFails then
            ⟨false, none, none⟩
          else tpPhase env takeProfit (some env.slOrderId)
        else tpPhase env takeProfit none

/-- Environment in which a position exists and only the take-profit
creation fails. -/
def sampleTpFailEnv : SetSlTpEnv :=
  ⟨false, some 5, false, 100, false, "sl1", false, 100, true, "tp1"⟩

/-- C10 fails as stated: a call that requests only a take-profit on an
existing position, whose take-profit creation fails, returns
`success = false` even though a position exists and no stop-loss creation
failed (none was requested). -/
theorem C10_counterexample :
    setPositionStopLoss sampleTpFailEnv none (some 120) = ⟨false, none, none⟩ ∧
    sampleTpFailEnv.positionSize = some 5 ∧
    sampleTpFailEnv.slCreateFails = false := by
  refine ⟨?_, rfl, rfl⟩
  norm_num [setPositionStopLoss, tpPhase, positiveRequested, sampleTpFailEnv]

end AutoTrading

namespace AutoTrading

/-- When a stop-loss order was created, every path through the take-profit
phase reports success. -/
theorem tpPhase_some_success (env : SetSlTpEnv) (takeProfit : Option ℚ) (i : String) :
    (tpPhase env takeProfit (some i)).success = true := by
  unfold tpPhase
  split
  · split
    · rfl
    · rfl
  · rfl

/-- The take-profit phase reports failure only without a stop-loss order
and with a positive requested take-profit whose branch failed. -/
theorem tpPhase_success_false (env : SetSlTpEnv) (takeProfit : Option ℚ)
    (slId : Option String) (hs : (tpPhase env takeProfit slId).success = false) :
    slId = none ∧ ∃ tp, takeProfit = some tp ∧ 0 < tp ∧
      (env.tpTickerFails = true ∨ env.tpTickerPrice ≤ 0 ∨ env.tpCreateFails = true) := by
  unfold tpPhase at hs
  rcases htp : takeProfit with _ | tp
  · subst htp
    simp [positiveRequested] at hs
  · subst htp
    by_cases htppos : 0 < tp
    · rw [if_pos (by simp [positiveRequested, htppos])] at hs
      by_cases htpf : env.tpTickerFails = true ∨ env.tpTickerPrice ≤ 0 ∨
          env.tpCreateFails = true
      · rw [if_pos htpf] at hs
        rcases slId with _ | i
        · exact ⟨rfl, tp, rfl, htppos, htpf⟩
        · simp at hs
      · rw [if_neg htpf] at hs
        simp at hs
    · rw [if_neg (by simp [positiveRequested, htppos])] at hs
      simp at hs

/-- C10 (amended): when the stop-loss trigger is created and the
take-profit creation then fails, the call still returns `success = true`
with `stopLossOrderId` set and no `takeProfitOrderId`; and
`success = false` occurs only when fetching positions fails, no position
exists (or its size is 0), a requested stop-loss branch fails, or a
requested (positive) take-profit branch fails with no stop-loss order
created in the same call. -/
theorem C10_sl_success_despite_tp_failure (env : SetSlTpEnv)
    (stopLoss takeProfit : Option ℚ) :
    (env.getPositionsFails = false →
      ∀ posSize, env.positionSize = some posSize → |posSize| ≠ 0 →
      ∀ sl, stopLoss = some sl → 0 < sl →
      env.slTickerFails = false → 0 < env.slTickerPrice → env.slCreateFails = false →
      ∀ tp, takeProfit = some tp → 0 < tp →
      (env.tpTickerFails = true ∨ env.tpTickerPrice ≤ 0 ∨ env.tpCreateFails = true) →
      setPositionStopLoss env stopLoss takeProfit = ⟨true, some env.slOrderId, none⟩) ∧
    ((setPositionStopLoss env stopLoss takeProfit).success = false →
      env.getPositionsFails = true ∨
      env.positionSize = none ∨
      (∃ q, env.positionSize = some q ∧ |q| = 0) ∨
      (∃ sl, stopLoss = some sl ∧ 0 < sl ∧
        (env.slTickerFails = true ∨ env.slTickerPrice ≤ 0 ∨ env.slCreateFails = true)) ∨
      (∃ tp, takeProfit = some tp ∧ 0 < tp ∧
        (env.tpTickerFails = true ∨ env.tpTickerPrice ≤ 0 ∨ env.tpCreateFails = true))) := by
  constructor
  · intro hg posSize hps hq sl hsl hslpos hstf hstp hscf tp htp htppos htpfail
    subst hsl htp
    simp only [setPositionStopLoss, hg, hps, Bool.false_eq_true, if_false]
    rw [if_neg hq]
    rw [if_pos (by simp [positiveRequested, hslpos])]
    rw [if_neg (by
      rintro (h | h | h)
      · rw [hstf] at h
        simp at h
      · linarith
      · rw [hscf] at h
        simp at h)]
    unfold tpPhase
    rw [if_pos (by simp [positiveRequested, htppos]), if_pos htpfail]
  · intro hs
    by_cases hg : env.getPositionsFails = true
    · exact Or.inl hg
    rcases hps : env.positionSize with _ | q
    · exact Or.inr (Or.inl rfl)
    by_cases hq : |q| = 0
    · exact Or.inr (Or.inr (Or.inl ⟨q, rfl, hq⟩))
    rw [Bool.not_eq_true] at hg
    simp only [setPositionStopLoss, hg, hps, Bool.false_eq_true, if_false] at hs
    rw [if_neg hq] at hs
    by_cases hsreq : positiveRequested stopLoss = true
    · rcases hslx : stopLoss with _ | sl
      · subst hslx
        simp [positiveRequested] at hsreq
      · subst hslx
        have hslpos : 0 < sl := by simpa [positiveRequested] using hsreq
        by_cases hslf : env.slTickerFails = true ∨ env.slTickerPrice ≤ 0 ∨
            env.slCreateFails = true
        · exact Or.inr (Or.inr (Or.inr (Or.inl ⟨sl, rfl, hslpos, hslf⟩)))
        · rw [if_pos hsreq, if_neg hslf] at hs
          simp [tpPhase_some_success] at hs
    · rw [if_neg hsreq] at hs
      rcases tpPhase_success_false env takeProfit none hs with ⟨-, tp, htp, htppos, htpf⟩
      exact Or.inr (Or.inr (Or.inr (Or.inr ⟨tp, htp, htppos, htpf⟩)))

/-- Environment where the position exists, the stop-loss creation succeeds
and the take-profit ticker fetch fails. -/
def sampleSlOkTpFailEnv : SetSlTpEnv :=
  ⟨false, some 5, false, 100, false, "sl1", true, 100, false, "tp1"⟩

/-- Witness for C10 (amended): stop-loss at 95 created, take-profit at 120
fails, call still succeeds with only the stop-loss id. -/
theorem C10_sl_success_despite_tp_failure_witness :
    setPositionStopLoss sampleSlOkTpFailEnv (some 95) (some 120) =
      ⟨true, some "sl1", none⟩ :=
  (C10_sl_success_despite_tp_failure sampleSlOkTpFailEnv (some 95) (some 120)).1
    rfl 5 rfl (by norm_num) 95 rfl (by norm_num) rfl
    (by norm_num [sampleSlOkTpFailEnv]) rfl 120 rfl (by norm_num) (Or.inl rfl)

end AutoTrading
